import Mathlib

/-!
Verification of the daysbot repository (a Telegram birthday/event bot).

The definitions below are a shallow embedding of the Python source:
`parsers.py` (date parsing and validation), `database.py` (the SQLite-backed
store operations), `scheduler.py` (the daily batch jobs) and the `/add_event`
handler of `bot.py`.  Machine dates are modelled as explicit
year/month/day triples; SQLite `DATE` strings compare lexicographically on
their ISO fields, which is mirrored by `DbDate.lt`; `julianday` differences
are mirrored by the rata-die day count `DbDate.toRD`.
-/

set_option maxHeartbeats 1000000

/-! ## Calendar core

`is_leap_year` transcribes the leap test used identically in
`parsers.py` (DateValidator.is_leap_year), `database.py`
(get_todays_birthdays line 251) and SQLite's Gregorian calendar:
divisible by 4 and not by 100, or divisible by 400. -/

def is_leap_year (y : Nat) : Bool :=
  (y % 4 == 0 && y % 100 != 0) || (y % 400 == 0)

/-- Number of days of month `m` (1..12) in year `y`, Gregorian. -/
def month_days (y m : Nat) : Nat :=
  if m = 2 then (if is_leap_year y then 29 else 28)
  else if m = 4 ∨ m = 6 ∨ m = 9 ∨ m = 11 then 30
  else 31

/-- A calendar date as stored in SQLite `DATE` columns (`YYYY-MM-DD`). -/
structure DbDate where
  year : Nat
  month : Nat
  day : Nat
deriving DecidableEq, Repr

/-- A structurally legal Gregorian date with a positive year. -/
def DbDate.valid (d : DbDate) : Prop :=
  1 ≤ d.year ∧ 1 ≤ d.month ∧ d.month ≤ 12 ∧ 1 ≤ d.day ∧ d.day ≤ month_days d.year d.month

instance (d : DbDate) : Decidable d.valid := by
  unfold DbDate.valid; infer_instance

/-- Lexicographic order on dates.  SQLite compares `DATE` values as ISO
strings, and for zero-padded four-digit-year dates the string order is
exactly the lexicographic order of the (year, month, day) fields. -/
def DbDate.lt (a b : DbDate) : Bool :=
  a.year < b.year ∨ (a.year = b.year ∧
    (a.month < b.month ∨ (a.month = b.month ∧ a.day < b.day)))

/-- Days in years `1..y-1`: the rata-die offset of January 1 of year `y`. -/
def daysBeforeYear (y : Nat) : Nat :=
  365 * (y - 1) + (y - 1) / 4 - (y - 1) / 100 + (y - 1) / 400

/-- Days in the months of year `y` strictly before month `m` (m in 1..12). -/
def daysBeforeMonth (y m : Nat) : Nat :=
  (match m with
   | 1 => 0 | 2 => 31 | 3 => 59 | 4 => 90 | 5 => 120 | 6 => 151
   | 7 => 181 | 8 => 212 | 9 => 243 | 10 => 273 | 11 => 304 | _ => 334)
  + (if 3 ≤ m ∧ is_leap_year y then 1 else 0)

/-- Rata die: the number of the day in the proleptic Gregorian calendar,
with `⟨1,1,1⟩.toRD = 1`.  This mirrors SQLite's `julianday` differences:
for two valid dates the difference of their `toRD` values is the number
of days between them. -/
def DbDate.toRD (d : DbDate) : Nat :=
  daysBeforeYear d.year + daysBeforeMonth d.year d.month + d.day

theorem daysBeforeYear_succ (y : Nat) (hy : 1 ≤ y) :
    daysBeforeYear (y + 1) =
      daysBeforeYear y + 365 + (if is_leap_year y then 1 else 0) := by
  unfold daysBeforeYear is_leap_year
  simp only [Nat.add_sub_cancel]
  split
  · rename_i h
    simp only [Bool.or_eq_true, Bool.and_eq_true, beq_iff_eq, bne_iff_ne, ne_eq] at h
    omega
  · rename_i h
    simp only [Bool.or_eq_true, Bool.and_eq_true, beq_iff_eq, bne_iff_ne, ne_eq] at h
    push_neg at h
    omega

theorem daysBeforeYear_mono (y1 y2 : Nat) (h1 : 1 ≤ y1) (h : y1 < y2) :
    daysBeforeYear y1 + 365 ≤ daysBeforeYear y2 := by
  induction y2 with
  | zero => omega
  | succ n ih =>
    rcases Nat.lt_succ_iff_lt_or_eq.mp h with h' | h'
    · have := ih h'
      have hr := daysBeforeYear_succ n (by omega)
      split at hr <;> omega
    · subst h'
      have hr := daysBeforeYear_succ y1 h1
      split at hr <;> omega

/-- The day-of-year index `daysBeforeMonth + day` of a valid date lies in
`[1, 365]` (non-leap) or `[1, 366]` (leap). -/
theorem dayOfYear_bounds (y m d : Nat) (hm1 : 1 ≤ m) (hm2 : m ≤ 12)
    (hd1 : 1 ≤ d) (hd2 : d ≤ month_days y m) :
    1 ≤ daysBeforeMonth y m + d ∧
      daysBeforeMonth y m + d ≤ 365 + (if is_leap_year y then 1 else 0) := by
  unfold month_days at hd2
  unfold daysBeforeMonth
  interval_cases m <;> simp_all <;> split <;> simp_all <;> omega

theorem daysBeforeMonth_step (y m : Nat) (hm1 : 1 ≤ m) (hm2 : m ≤ 11) :
    daysBeforeMonth y m + month_days y m = daysBeforeMonth y (m + 1) := by
  unfold daysBeforeMonth month_days
  interval_cases m <;> by_cases h : is_leap_year y = true <;> simp [h] <;> omega

theorem daysBeforeMonth_mono (y : Nat) {m1 m2 : Nat} (hm1 : 1 ≤ m1)
    (hm2 : m2 ≤ 12) (h : m1 < m2) :
    daysBeforeMonth y m1 + month_days y m1 ≤ daysBeforeMonth y m2 := by
  induction m2 with
  | zero => omega
  | succ n ih =>
    rcases Nat.lt_succ_iff_lt_or_eq.mp h with h' | h'
    · have hstep := daysBeforeMonth_step y n (by omega) (by omega)
      have := ih (by omega) h'
      omega
    · subst h'
      exact (daysBeforeMonth_step y m1 hm1 (by omega)).le

/-- On valid dates the ISO-string (lexicographic) order agrees with the
rata-die order: this is what makes SQLite's textual `sent_date < cutoff`
comparison a genuine day-count comparison. -/
theorem DbDate.lt_iff_toRD_lt {a b : DbDate} (ha : a.valid) (hb : b.valid) :
    a.lt b = true ↔ a.toRD < b.toRD := by
  obtain ⟨hay, ham1, ham2, had1, had2⟩ := ha
  obtain ⟨hby, hbm1, hbm2, hbd1, hbd2⟩ := hb
  have key : ∀ x y : DbDate, x.valid → y.valid → x.lt y = true → x.toRD < y.toRD := by
    intro x y hx hy hlt
    obtain ⟨hxy, hxm1, hxm2, hxd1, hxd2⟩ := hx
    obtain ⟨hyy, hym1, hym2, hyd1, hyd2⟩ := hy
    simp only [DbDate.lt, decide_eq_true_eq] at hlt
    unfold DbDate.toRD
    rcases hlt with hlt | ⟨hyeq, hlt⟩
    · have hb1 := dayOfYear_bounds x.year x.month x.day hxm1 hxm2 hxd1 hxd2
      have hb2 := (dayOfYear_bounds y.year y.month y.day hym1 hym2 hyd1 hyd2).1
      have hs := daysBeforeYear_succ x.year hxy
      have hmono : daysBeforeYear (x.year + 1) ≤ daysBeforeYear y.year := by
        rcases Nat.lt_or_ge (x.year + 1) y.year with h' | h'
        · have := daysBeforeYear_mono (x.year + 1) y.year (by omega) h'
          omega
        · have h0 : x.year + 1 = y.year := by omega
          rw [h0]
      cases hL : is_leap_year x.year <;> simp [hL] at hs hb1 <;> omega
    · rw [hyeq]
      rcases hlt with hlt | ⟨hmeq, hlt⟩
      · have := daysBeforeMonth_mono y.year hxm1 hym2 hlt
        rw [hyeq] at hxd2
        omega
      · rw [hmeq]; omega
  constructor
  · intro h
    exact key a b ⟨hay, ham1, ham2, had1, had2⟩ ⟨hby, hbm1, hbm2, hbd1, hbd2⟩ h
  · intro h
    by_contra hne
    have htri : b.lt a = true ∨ (a.year = b.year ∧ a.month = b.month ∧ a.day = b.day) := by
      simp only [DbDate.lt, decide_eq_true_eq] at hne ⊢
      omega
    rcases htri with hba | ⟨h1, h2, h3⟩
    · have := key b a ⟨hby, hbm1, hbm2, hbd1, hbd2⟩ ⟨hay, ham1, ham2, had1, had2⟩ hba
      omega
    · have : a.toRD = b.toRD := by unfold DbDate.toRD; rw [h1, h2, h3]
      omega

/-! ## Store data model (`database.py`)

Rows of the SQLite tables that the claims touch.  Lists model tables in
rowid (insertion) order, which is the scan order SQLite uses for these
queries.  `Db.now_date` models the date produced by SQLite's
`DATE('now')` (the store's current UTC civil day); the `today` arguments
of the Python methods are separate values (the scheduler passes the
UTC+3 date from `get_msk_time`). -/

structure BirthdayRow where
  user_id : Int
  chat_id : Int
  day : Nat
  month : Nat
  year : Option Int
  username : Option String
  full_name : String
deriving DecidableEq, Repr

structure AllowedChatRow where
  chat_id : Int
  is_active : Bool
deriving DecidableEq, Repr

structure CongratulationRow where
  id : Int
  text : String
  used_count : Nat
deriving DecidableEq, Repr

structure EventRow where
  id : Int
  chat_id : Int
  name : String
  day : Nat
  month : Nat
  year : Option Int
  message : String
  media_type : Option String
  media_id : Option String
  is_active : Bool
deriving DecidableEq, Repr

structure SentCongratulationRow where
  chat_id : Int
  user_id : Int
  congratulation_id : Int
  sent_date : DbDate
deriving DecidableEq, Repr

structure SentEventRow where
  event_id : Int
  sent_date : DbDate
deriving DecidableEq, Repr

structure Db where
  allowed_chats : List AllowedChatRow
  birthdays : List BirthdayRow
  congratulations : List CongratulationRow
  events : List EventRow
  sent_congratulations : List SentCongratulationRow
  sent_events : List SentEventRow
  now_date : DbDate
deriving DecidableEq, Repr

/-- `Database.is_chat_allowed`: `SELECT 1 FROM allowed_chats WHERE chat_id = ?
AND is_active = 1` is non-empty. -/
def is_chat_allowed (db : Db) (chat_id : Int) : Bool :=
  db.allowed_chats.any (fun c => c.chat_id == chat_id && c.is_active)

/-- `Database.get_todays_birthdays` (database.py lines 244-270): on
February 28 of a non-leap year the query also matches `(month=2, day=29)`
rows; otherwise it matches exactly today's (month, day). -/
def get_todays_birthdays (db : Db) (today : DbDate) : List BirthdayRow :=
  if today.month = 2 ∧ today.day = 28 ∧ ¬ is_leap_year today.year then
    db.birthdays.filter (fun b =>
      (b.month = today.month ∧ b.day = today.day) ∨ (b.month = 2 ∧ b.day = 29))
  else
    db.birthdays.filter (fun b => b.month = today.month ∧ b.day = today.day)

/-- The `CASE` expression of `Database.get_upcoming_birthdays`
(database.py lines 276-289): the candidate year is the current year of
`DATE('now')` when the stored (month, day) has not yet passed, else the
next year; `julianday(date(Y-MM-DD)) - julianday(today)` is the rata-die
difference, and SQLite's `date()` returns NULL on a calendar-invalid
string such as `2026-02-29`, which makes the whole expression NULL. -/
def sql_days_expr (today target : DbDate) : Option Int :=
  if target.valid then some ((target.toRD : Int) - (today.toRD : Int)) else none

def days_until (today : DbDate) (b : BirthdayRow) : Option Int :=
  if b.month > today.month ∨ (b.month = today.month ∧ b.day ≥ today.day) then
    sql_days_expr today ⟨today.year, b.month, b.day⟩
  else
    sql_days_expr today ⟨today.year + 1, b.month, b.day⟩

/-- `ORDER BY days_until` key order: SQLite sorts NULL before all numbers
in ascending order. -/
def nullsFirstLe (a b : Option Int) : Bool :=
  match a, b with
  | none, _ => true
  | some _, none => false
  | some x, some y => x ≤ y

/-- Stable insertion (an element is placed after every earlier element it
does not strictly precede), modelling a stable `ORDER BY`. -/
def stableInsert {α : Type} (le : α → α → Bool) (x : α) : List α → List α
  | [] => [x]
  | y :: ys => if le y x then y :: stableInsert le x ys else x :: y :: ys

/-- Stable sort by repeated insertion. -/
def stableSort {α : Type} (le : α → α → Bool) : List α → List α
  | [] => []
  | x :: xs => stableInsert le x (stableSort le xs)

/-- `Database.get_upcoming_birthdays` (database.py lines 272-295):
filter the chat's rows, key each by the `days_until` CASE expression
evaluated against `DATE('now')`, sort ascending (NULLs first) and take
`limit` rows. -/
def get_upcoming_birthdays (db : Db) (chat_id : Int) (limit : Nat) : List BirthdayRow :=
  let rows := db.birthdays.filter (fun b => b.chat_id == chat_id)
  let keyed := rows.map (fun b => (b, days_until db.now_date b))
  let sorted := stableSort (fun p q => nullsFirstLe p.2 q.2) keyed
  (sorted.take limit).map (fun p => p.1)

/-- `Database.mark_birthday_sent` (database.py lines 343-354): `INSERT`
into `sent_congratulations` with `sent_date = DATE('now')`.  The
`UNIQUE(chat_id, user_id, sent_date)` constraint makes a second insert
for the same key raise, which the method catches, leaving the table
unchanged and returning `False`. -/
def mark_birthday_sent (db : Db) (user_id chat_id congratulation_id : Int) :
    Db × Bool :=
  if db.sent_congratulations.any (fun s =>
      s.chat_id == chat_id && s.user_id == user_id && s.sent_date == db.now_date) then
    (db, false)
  else
    ({ db with sent_congratulations :=
        db.sent_congratulations ++
          [⟨chat_id, user_id, congratulation_id, db.now_date⟩] }, true)

/-- `Database.mark_event_sent` (database.py lines 410-420). -/
def mark_event_sent (db : Db) (event_id : Int) : Db × Bool :=
  if db.sent_events.any (fun s => s.event_id == event_id && s.sent_date == db.now_date) then
    (db, false)
  else
    ({ db with sent_events := db.sent_events ++ [⟨event_id, db.now_date⟩] }, true)

/-- `Database.get_todays_events` (database.py lines 374-392): active
events with exactly today's (month, day), LEFT JOINed against
`sent_events` on `sent_date = DATE('now')` and kept only when no marker
row matched.  Note the marker comparison uses the store's current date
`db.now_date`, not the `today` argument. -/
def get_todays_events (db : Db) (today : DbDate) : List EventRow :=
  db.events.filter (fun e =>
    e.is_active ∧ e.month = today.month ∧ e.day = today.day ∧
      ¬ (db.sent_events.any (fun s => s.event_id == e.id && s.sent_date == db.now_date) = true))

/-- `Database.get_random_congratulation` (database.py lines 321-341):
`ORDER BY RANDOM() LIMIT 1`; the row choice is modelled by the `pick`
parameter; on a hit the row's `used_count` is incremented. -/
def get_random_congratulation (pick : List CongratulationRow → Option CongratulationRow)
    (db : Db) : Db × Option CongratulationRow :=
  match pick db.congratulations with
  | none => (db, none)
  | some c =>
      ({ db with congratulations := db.congratulations.map (fun r =>
          if r.id == c.id then { r with used_count := r.used_count + 1 } else r) },
        some c)

/-! ## Scheduler batch jobs (`scheduler.py`) -/

/-- The congratulation text built at scheduler.py lines 182-185. -/
def birthday_message (b : BirthdayRow) (c : CongratulationRow) : String :=
  let username := match b.username with
    | some u => "@" ++ u
    | none => b.full_name
  "🎉 Поздравляем " ++ username ++ " с днём рождения!\n\n" ++ c.text

/-- `Scheduler._send_birthday_congratulations` (scheduler.py lines
154-208): fetch today's birthdays, and for each one — skipping rows of
disallowed chats and giving up when the congratulation pool is empty —
dispatch a message and then record a sent-marker.  No sent-marker is
consulted before dispatching; only the marker insert itself is guarded
by the UNIQUE constraint.  Returns the new store state and the list of
dispatched `(chat_id, text)` messages. -/
def send_birthday_congratulations
    (pick : List CongratulationRow → Option CongratulationRow)
    (today : DbDate) (db : Db) : Db × List (Int × String) :=
  let birthdays := get_todays_birthdays db today
  birthdays.foldl
    (fun acc bd =>
      let (st, out) := acc
      if ¬ (is_chat_allowed st bd.chat_id = true) then (st, out)
      else
        match get_random_congratulation pick st with
        | (st', none) => (st', out)
        | (st', some c) =>
            let out' := out ++ [(bd.chat_id, birthday_message bd c)]
            let (st'', _) := mark_birthday_sent st' bd.user_id bd.chat_id c.id
            (st'', out'))
    (db, [])

/-- The year-elapsed test of the cleanup `UPDATE` (scheduler.py lines
364-369): a non-null `year` strictly before today's year, or equal to it
with the event's (month, day) strictly before today's. -/
def event_year_elapsed (today : DbDate) (e : EventRow) : Bool :=
  match e.year with
  | none => false
  | some y =>
      y < (today.year : Int) ∨
        (y = (today.year : Int) ∧
          (e.month < today.month ∨ (e.month = today.month ∧ e.day < today.day)))

/-- `Scheduler._cleanup_old_data` (scheduler.py lines 343-376): delete
sent-markers of both kinds whose `sent_date` is (as an ISO date string)
strictly below `thirty_days_ago = (msk_now - 30 days).date()`, and set
`is_active = 0` on events whose optional year has elapsed. -/
def cleanup_old_data (today thirty_days_ago : DbDate) (db : Db) : Db :=
  { db with
    sent_congratulations :=
      db.sent_congratulations.filter (fun s => ¬ (s.sent_date.lt thirty_days_ago = true)),
    sent_events :=
      db.sent_events.filter (fun s => ¬ (s.sent_date.lt thirty_days_ago = true)),
    events := db.events.map (fun e =>
      if event_year_elapsed today e then { e with is_active := false } else e) }

/-! ## Due-item resolver and cleanup: theorems -/

/-- **C2.** For every date `today`, `get_todays_birthdays` returns exactly
the rows whose (month, day) equal today's — plus, when today is
February 28 of a non-leap year, the rows with (month=2, day=29) — each
row appearing at most as often as it is stored; and on February 29 the
result is exactly the (2, 29) rows (so (2, 28) rows are not included). -/
theorem C2_todays_birthdays_exact (db : Db) (today : DbDate) :
    get_todays_birthdays db today =
      db.birthdays.filter (fun b =>
        (b.month = today.month ∧ b.day = today.day) ∨
          (today.month = 2 ∧ today.day = 28 ∧ is_leap_year today.year = false ∧
            b.month = 2 ∧ b.day = 29)) ∧
    (∀ b : BirthdayRow,
      (get_todays_birthdays db today).count b ≤ db.birthdays.count b) ∧
    (today.month = 2 → today.day = 29 →
      get_todays_birthdays db today =
        db.birthdays.filter (fun b => b.month = 2 ∧ b.day = 29)) := by
  refine ⟨?_, ?_, ?_⟩
  · unfold get_todays_birthdays
    split
    · rename_i h
      apply List.filter_congr
      intro b _
      rcases h with ⟨h1, h2, h3⟩
      have hL : is_leap_year today.year = false := by
        revert h3; cases is_leap_year today.year <;> simp
      simp only [decide_eq_decide]
      constructor
      · rintro (hb | hb)
        · exact Or.inl hb
        · exact Or.inr ⟨h1, h2, hL, hb.1, hb.2⟩
      · rintro (hb | hb)
        · exact Or.inl hb
        · exact Or.inr ⟨hb.2.2.2.1, hb.2.2.2.2⟩
    · rename_i h
      apply List.filter_congr
      intro b _
      simp only [decide_eq_decide]
      constructor
      · exact Or.inl
      · rintro (hb | ⟨h1, h2, hL, _, _⟩)
        · exact hb
        · exact absurd ⟨h1, h2, by simp [hL]⟩ h
  · intro b
    unfold get_todays_birthdays
    split <;> exact (List.filter_sublist _).count_le _
  · intro h2 h29
    unfold get_todays_birthdays
    rw [if_neg (by rw [h29]; omega)]
    apply List.filter_congr
    intro b _
    rw [h2, h29]

def C2wDb : Db :=
  ⟨[], [⟨1, 1, 29, 2, none, none, "a"⟩, ⟨2, 1, 28, 2, none, none, "b"⟩],
    [], [], [], [], ⟨2024, 2, 29⟩⟩

/-- C2 witness: on February 29 of the leap year 2024 the resolver
returns the stored (2, 29) row and not the stored (2, 28) row. -/
theorem C2_todays_birthdays_exact_witness :
    get_todays_birthdays C2wDb ⟨2024, 2, 29⟩ = [⟨1, 1, 29, 2, none, none, "a"⟩] := by
  have h := (C2_todays_birthdays_exact C2wDb ⟨2024, 2, 29⟩).2.2 rfl rfl
  rw [h]
  decide

def C6xEvent : EventRow := ⟨1, 10, "e", 28, 2, none, "m", none, none, true⟩

def C6xDb : Db :=
  ⟨[], [], [], [C6xEvent], [], [⟨1, ⟨2025, 2, 27⟩⟩], ⟨2025, 2, 27⟩⟩

/-- **C6 counterexample.**  The claim says `get_todays_events(today)`
returns every active event with today's (month, day) that has no event
sent-marker recorded for *today's* date.  Here the store holds an active
(2, 28) event, `today` is 2025-02-28, and no sent-marker dated
2025-02-28 exists (the only marker is dated 2025-02-27) — yet the query
returns nothing, because the SQL compares markers against `DATE('now')`
(the store's current date, 2025-02-27 here), not against `today`. -/
theorem C6_counterexample :
    get_todays_events C6xDb ⟨2025, 2, 28⟩ = [] ∧
      C6xDb.sent_events.all (fun s => s.sent_date != ⟨2025, 2, 28⟩) = true ∧
      C6xEvent.is_active = true ∧ C6xEvent.month = 2 ∧ C6xEvent.day = 28 := by
  decide

/-- **C6 (amended).**  `get_todays_events(today)` returns exactly the
active events whose (month, day) equal today's and that have no event
sent-marker recorded for the *store's current date* (`DATE('now')`,
i.e. `db.now_date` — which coincides with `today` only when the two
clocks agree); in particular there is no leap-day carry for events: on
a February 28 query no (month=2, day=29) event is ever returned. -/
theorem C6_todays_events_amended (db : Db) (today : DbDate) :
    get_todays_events db today =
      db.events.filter (fun e =>
        e.is_active = true ∧ e.month = today.month ∧ e.day = today.day ∧
          ∀ s ∈ db.sent_events, ¬ (s.event_id = e.id ∧ s.sent_date = db.now_date)) ∧
    (today.month = 2 → today.day = 28 →
      ∀ e ∈ get_todays_events db today, ¬ (e.month = 2 ∧ e.day = 29)) := by
  have hmain : get_todays_events db today =
      db.events.filter (fun e =>
        e.is_active = true ∧ e.month = today.month ∧ e.day = today.day ∧
          ∀ s ∈ db.sent_events, ¬ (s.event_id = e.id ∧ s.sent_date = db.now_date)) := by
    unfold get_todays_events
    apply List.filter_congr
    intro e _
    simp only [decide_eq_decide, List.any_eq_true, Bool.and_eq_true, beq_iff_eq]
    constructor
    · rintro ⟨h1, h2, h3, h4⟩
      exact ⟨h1, h2, h3, fun s hs hc => h4 ⟨s, hs, hc.1, hc.2⟩⟩
    · rintro ⟨h1, h2, h3, h4⟩
      exact ⟨h1, h2, h3, fun ⟨s, hs, hc1, hc2⟩ => h4 s hs ⟨hc1, hc2⟩⟩
  refine ⟨hmain, ?_⟩
  intro h2 h28 e he
  rw [hmain] at he
  have := List.of_mem_filter he
  simp only [decide_eq_true_eq] at this
  rintro ⟨hm, hd⟩
  rw [hm] at this
  rw [hd] at this
  omega

def C6wDb : Db :=
  ⟨[], [], [], [⟨1, 10, "e", 28, 2, none, "m", none, none, true⟩], [], [],
    ⟨2025, 2, 28⟩⟩

/-- C6 witness: applying the amended theorem at a concrete store whose
clock agrees with `today`, the single matching (2, 28) event is not a
(2, 29) event. -/
theorem C6_todays_events_amended_witness :
    ¬ ((⟨1, 10, "e", 28, 2, none, "m", none, none, true⟩ : EventRow).month = 2 ∧
       (⟨1, 10, "e", 28, 2, none, "m", none, none, true⟩ : EventRow).day = 29) :=
  (C6_todays_events_amended C6wDb ⟨2025, 2, 28⟩).2 rfl rfl
    ⟨1, 10, "e", 28, 2, none, "m", none, none, true⟩ (by decide)

/-- **C10.**  One cleanup run deletes exactly the birthday and event
sent-markers whose `sent_date` lies strictly more than 30 days before
`today` (given that the cutoff parameter really is the date 30 days
before `today`, as computed by `get_msk_time() - timedelta(days=30)`),
deactivates exactly the events whose non-null year has fully elapsed,
and changes nothing else. -/
theorem C10_cleanup_exact (db : Db) (today thirty_days_ago : DbDate)
    (htv : today.valid) (hcv : thirty_days_ago.valid)
    (hcut : thirty_days_ago.toRD + 30 = today.toRD)
    (hbm : ∀ s ∈ db.sent_congratulations, s.sent_date.valid)
    (hem : ∀ s ∈ db.sent_events, s.sent_date.valid) :
    (cleanup_old_data today thirty_days_ago db).sent_congratulations =
      db.sent_congratulations.filter
        (fun s => ¬ (s.sent_date.toRD + 30 < today.toRD)) ∧
    (cleanup_old_data today thirty_days_ago db).sent_events =
      db.sent_events.filter (fun s => ¬ (s.sent_date.toRD + 30 < today.toRD)) ∧
    (cleanup_old_data today thirty_days_ago db).events =
      db.events.map (fun e =>
        match e.year with
        | none => e
        | some y =>
            if y < (today.year : Int) ∨
                (y = (today.year : Int) ∧
                  (e.month < today.month ∨
                    (e.month = today.month ∧ e.day < today.day))) then
              { e with is_active := false }
            else e) ∧
    (cleanup_old_data today thirty_days_ago db).allowed_chats = db.allowed_chats ∧
    (cleanup_old_data today thirty_days_ago db).birthdays = db.birthdays ∧
    (cleanup_old_data today thirty_days_ago db).congratulations = db.congratulations ∧
    (cleanup_old_data today thirty_days_ago db).now_date = db.now_date := by
  refine ⟨?_, ?_, ?_, rfl, rfl, rfl, rfl⟩
  · apply List.filter_congr
    intro s hs
    have hiff := DbDate.lt_iff_toRD_lt (hbm s hs) hcv
    simp only [decide_eq_decide]
    rw [hiff]
    omega
  · apply List.filter_congr
    intro s hs
    have hiff := DbDate.lt_iff_toRD_lt (hem s hs) hcv
    simp only [decide_eq_decide]
    rw [hiff]
    omega
  · apply List.map_congr_left
    intro e _
    unfold event_year_elapsed
    cases e.year <;> simp

def C10wDb : Db :=
  ⟨[], [], [],
    [⟨7, 1, "old", 1, 6, some 2024, "m", none, none, true⟩,
     ⟨8, 1, "new", 1, 6, none, "m", none, none, true⟩],
    [⟨1, 1, 1, ⟨2025, 1, 30⟩⟩, ⟨1, 2, 1, ⟨2025, 1, 31⟩⟩],
    [⟨5, ⟨2024, 12, 1⟩⟩],
    ⟨2025, 3, 2⟩⟩

/-- C10 witness: cleaning up on 2025-03-02 with cutoff 2025-01-31
(which is 30 days earlier) deletes the 2025-01-30 birthday marker and
the 2024-12-01 event marker, keeps the 2025-01-31 marker, and
deactivates exactly the year-2024 event. -/
theorem C10_cleanup_exact_witness :
    (⟨2025, 1, 31⟩ : DbDate).toRD + 30 = (⟨2025, 3, 2⟩ : DbDate).toRD ∧
    (cleanup_old_data ⟨2025, 3, 2⟩ ⟨2025, 1, 31⟩ C10wDb).sent_congratulations =
      [⟨1, 2, 1, ⟨2025, 1, 31⟩⟩] ∧
    (cleanup_old_data ⟨2025, 3, 2⟩ ⟨2025, 1, 31⟩ C10wDb).sent_events = [] ∧
    (cleanup_old_data ⟨2025, 3, 2⟩ ⟨2025, 1, 31⟩ C10wDb).events =
      [⟨7, 1, "old", 1, 6, some 2024, "m", none, none, false⟩,
       ⟨8, 1, "new", 1, 6, none, "m", none, none, true⟩] := by
  have h := C10_cleanup_exact C10wDb ⟨2025, 3, 2⟩ ⟨2025, 1, 31⟩
    (by decide) (by decide) (by decide) (by decide) (by decide)
  refine ⟨by decide, ?_, ?_, ?_⟩
  · rw [h.1]; decide
  · rw [h.2.1]; decide
  · rw [h.2.2.1]; decide

/-- Next occurrence of a stored (month, day), written from the spec's
words: keep this year unless the date has already passed, else roll to
next year; undefined when the resulting (year, month, day) is not a real
calendar date. -/
def next_occurrence_spec (today : DbDate) (b : BirthdayRow) : Option DbDate :=
  if b.month < today.month ∨ (b.month = today.month ∧ b.day < today.day) then
    (if (⟨today.year + 1, b.month, b.day⟩ : DbDate).valid then
      some ⟨today.year + 1, b.month, b.day⟩ else none)
  else
    (if (⟨today.year, b.month, b.day⟩ : DbDate).valid then
      some ⟨today.year, b.month, b.day⟩ else none)

/-- Day count to the next occurrence, written from the spec's words. -/
def days_until_spec (today : DbDate) (b : BirthdayRow) : Option Int :=
  (next_occurrence_spec today b).map (fun d => (d.toRD : Int) - (today.toRD : Int))

/-- Reference version of `get_upcoming_birthdays`, written from the
amended claim: key each of the chat's rows by `days_until_spec`, sort
stably ascending with undefined day counts first, take `limit`. -/
def get_upcoming_birthdays_spec (db : Db) (chat_id : Int) (limit : Nat) :
    List BirthdayRow :=
  let rows := db.birthdays.filter (fun b => b.chat_id == chat_id)
  let keyed := rows.map (fun b => (b, days_until_spec db.now_date b))
  let sorted := stableSort (fun p q => nullsFirstLe p.2 q.2) keyed
  (sorted.take limit).map (fun p => p.1)

def C5xRow1 : BirthdayRow := ⟨1, 1, 29, 2, none, none, "a"⟩

def C5xRow2 : BirthdayRow := ⟨2, 1, 29, 6, none, none, "b"⟩

def C5xDb : Db := ⟨[], [C5xRow1, C5xRow2], [], [], [], [], ⟨2025, 6, 28⟩⟩

/-- **C5 counterexample.**  The claim says the returned records are the
`limit` records with smallest non-negative day-count in ascending order.
On 2025-06-28 the store holds a (June 29) row whose day-count is 1 — the
unique smallest — and a (February 29) row whose rolled-to-2026 target
`2026-02-29` is not a real date, so its SQL `days_until` expression is
NULL.  With `limit = 1` the query returns the February 29 row (NULL
sorts first), not the June 29 row demanded by the claim. -/
theorem C5_counterexample :
    get_upcoming_birthdays C5xDb 1 1 = [C5xRow1] ∧
      days_until C5xDb.now_date C5xRow1 = none ∧
      days_until C5xDb.now_date C5xRow2 = some 1 ∧
      C5xRow1 ≠ C5xRow2 := by
  decide

theorem days_until_eq_spec (today : DbDate) (b : BirthdayRow) :
    days_until today b = days_until_spec today b := by
  unfold days_until days_until_spec next_occurrence_spec sql_days_expr
  by_cases h : b.month < today.month ∨ (b.month = today.month ∧ b.day < today.day)
  · rw [if_neg (by omega), if_pos h]
    split <;> rename_i hv <;> simp [hv]
  · rw [if_pos (by omega), if_neg h]
    split <;> rename_i hv <;> simp [hv]

/-- **C5 (amended).**  `get_upcoming_birthdays` keys each of the chat's
rows (in storage order) by the day count from the store's current date
(`DATE('now')`) to the next occurrence of its (month, day) — rolling to
the next year when the date has already passed — except that a row whose
next occurrence falls on a non-existent date (February 29 rolled into a
non-leap year) gets an undefined (NULL) day count; it then stable-sorts
ascending with NULL keys first and returns the first `limit` rows.  A
row whose (month, day) is today's gets day count 0. -/
theorem C5_upcoming_amended (db : Db) (chat_id : Int) (limit : Nat) :
    get_upcoming_birthdays db chat_id limit =
      get_upcoming_birthdays_spec db chat_id limit ∧
    (∀ b : BirthdayRow, db.now_date.valid → b.month = db.now_date.month →
      b.day = db.now_date.day → days_until db.now_date b = some 0) := by
  constructor
  · unfold get_upcoming_birthdays get_upcoming_birthdays_spec
    have hf : (fun b => (b, days_until db.now_date b)) =
        (fun b => (b, days_until_spec db.now_date b)) := by
      funext b
      rw [days_until_eq_spec]
    rw [hf]
  · intro b hv hm hd
    unfold days_until sql_days_expr
    rw [if_pos (Or.inr ⟨hm, hd.ge⟩)]
    have htarget : (⟨db.now_date.year, b.month, b.day⟩ : DbDate) = db.now_date := by
      rw [hm, hd]
    rw [htarget, if_pos hv]
    simp

def C5wRow : BirthdayRow := ⟨3, 2, 28, 6, none, none, "c"⟩

def C5wDb : Db := ⟨[], [C5wRow], [], [], [], [], ⟨2025, 6, 28⟩⟩

/-- C5 witness: a record whose (month, day) is the store's current date
has day count 0. -/
theorem C5_upcoming_amended_witness :
    days_until C5wDb.now_date C5wRow = some 0 :=
  (C5_upcoming_amended C5wDb 2 3).2 C5wRow (by decide) rfl rfl

/-! ## C1: the birthday batch job and the sent-marker -/

/-- Deterministic instance of the `ORDER BY RANDOM() LIMIT 1` row
choice: take the first row of the pool. -/
def pick_first (l : List CongratulationRow) : Option CongratulationRow :=
  l.head?

def C1Birthday : BirthdayRow := ⟨1, 10, 28, 6, none, some "u", "User"⟩

def C1Db : Db :=
  ⟨[⟨10, true⟩], [C1Birthday], [⟨1, "С днём рождения!", 0⟩], [], [], [],
    ⟨2025, 6, 28⟩⟩

def C1Today : DbDate := ⟨2025, 6, 28⟩

def C1Run1 : Db × List (Int × String) :=
  send_birthday_congratulations pick_first C1Today C1Db

def C1Run2 : Db × List (Int × String) :=
  send_birthday_congratulations pick_first C1Today C1Run1.1

/-- **C1 evaluation at the failing input.**  A store with one stored
birthday matching 2025-06-28, one allowed chat and one pooled
congratulation: the first batch run dispatches one message and records
one sent-marker; running the batch a second time on the same calendar
day dispatches the message *again* — the job never consults
`sent_congratulations` before sending — and only the second marker
insert is stopped by the `UNIQUE(chat_id, user_id, sent_date)`
constraint, so exactly one marker exists after both runs. -/
theorem C1_second_run_redispatches :
    C1Run1.2.length = 1 ∧ C1Run1.1.sent_congratulations.length = 1 ∧
      C1Run2.2.length = 1 ∧ C1Run2.1.sent_congratulations.length = 1 := by
  decide

/-! ## Date validator (`parsers.py`, class DateValidator) -/

/-- Success of Python's `datetime(year, month, day)` constructor: the
year lies in `datetime`'s MINYEAR..MAXYEAR range 1..9999, the month in
1..12, and the day in 1..(length of that month). -/
def pydatetime_ok (y m d : Int) : Bool :=
  decide (1 ≤ y ∧ y ≤ 9999 ∧ 1 ≤ m ∧ m ≤ 12 ∧ 1 ≤ d ∧
    d ≤ (month_days y.toNat m.toNat : Int))

/-- Python truthiness of the optional year in `year if year else 2024`
(parsers.py line 253): both `None` and `0` select the leap reference
year 2024. -/
def effective_py_year (year : Option Int) : Int :=
  match year with
  | none => 2024
  | some y => if y = 0 then 2024 else y

/-- `DateValidator.is_valid_date` (parsers.py lines 248-257). -/
def is_valid_date (day month : Int) (year : Option Int) : Bool :=
  pydatetime_ok (effective_py_year year) month day

/-- Month lengths as a table, written from the spec's words ("rejects
day 31 in a 30-day month, day 30 in February, day 29 in February of a
non-leap explicit year"). -/
def monthLengthTable (leap : Bool) : List Nat :=
  [31, if leap then 29 else 28, 31, 30, 31, 30, 31, 31, 30, 31, 30, 31]

/-- A legal Gregorian calendar date (within the constructible year range
1..9999), written from the spec's words. -/
def legal_gregorian_date (y m d : Int) : Bool :=
  decide (1 ≤ y ∧ y ≤ 9999 ∧ 1 ≤ m ∧ m ≤ 12 ∧ 1 ≤ d ∧
    d ≤ ((monthLengthTable (is_leap_year y.toNat)).getD (m.toNat - 1) 0 : Int))

theorem month_days_eq_table (y n : Nat) (h1 : 1 ≤ n) (h2 : n ≤ 12) :
    month_days y n = (monthLengthTable (is_leap_year y)).getD (n - 1) 0 := by
  interval_cases n <;> simp [month_days, monthLengthTable]

theorem pydatetime_ok_eq_legal (y m d : Int) :
    pydatetime_ok y m d = legal_gregorian_date y m d := by
  unfold pydatetime_ok legal_gregorian_date
  simp only [decide_eq_decide]
  constructor
  · rintro ⟨h1, h2, h3, h4, h5, h6⟩
    refine ⟨h1, h2, h3, h4, h5, ?_⟩
    rw [← month_days_eq_table y.toNat m.toNat (by omega) (by omega)]
    exact h6
  · rintro ⟨h1, h2, h3, h4, h5, h6⟩
    refine ⟨h1, h2, h3, h4, h5, ?_⟩
    rw [month_days_eq_table y.toNat m.toNat (by omega) (by omega)]
    exact h6

/-- **C9 counterexample.**  The claim says `is_valid_date(day, month,
year)` is true iff the triple is a legal Gregorian date *using the
supplied year*.  Supplying the (illegal) year 0 refutes it: Python's
`year if year else 2024` treats the integer 0 as "no year", so
`is_valid_date(29, 2, 0)` validates February 29 against the leap year
2024 and returns true, although year 0 admits no legal Gregorian date
in the constructible range. -/
theorem C9_counterexample :
    is_valid_date 29 2 (some 0) = true ∧ legal_gregorian_date 0 2 29 = false := by
  constructor <;> decide

/-- **C9 (amended).**  `is_valid_date(day, month, year)` is true iff
(day, month) is a legal Gregorian date in the supplied year — except
that a year that is absent *or zero* is replaced by the designated leap
reference year 2024; in particular `is_valid_date(31, 4, None)` and
`is_valid_date(29, 2, 2021)` are false while `is_valid_date(29, 2,
2020)` and `is_valid_date(29, 2, None)` are true. -/
theorem C9_is_valid_date_amended (day month : Int) (year : Option Int) :
    is_valid_date day month year =
      legal_gregorian_date (effective_py_year year) month day ∧
    is_valid_date 31 4 none = false ∧
    is_valid_date 29 2 (some 2021) = false ∧
    is_valid_date 29 2 (some 2020) = true ∧
    is_valid_date 29 2 none = true := by
  refine ⟨?_, by decide, by decide, by decide, by decide⟩
  unfold is_valid_date
  exact pydatetime_ok_eq_legal _ _ _

/-! ## Date expression parser (`parsers.py`, class DateParser)

The regular expressions of `parse_birthday` are embedded as explicit
character-list matchers.  All character classes are modelled at the
code points the grammar can produce: `\d` as the ASCII digits, `\s` as
ASCII whitespace, `[а-яё]` as the lowercase Cyrillic range plus `ё`.
Since each regex alternates runs of mutually disjoint character classes,
greedy matching with backtracking is equivalent to maximal-munch runs
with explicit length conditions, which is how the matchers below are
written. -/

def py_is_digit (c : Char) : Bool := '0' ≤ c && c ≤ '9'

def py_is_space (c : Char) : Bool :=
  c = ' ' || c = '\t' || c = '\n' || c = '\r' || c = Char.ofNat 11 || c = Char.ofNat 12

def py_is_cyr (c : Char) : Bool := ('а' ≤ c && c ≤ 'я') || c = 'ё'

/-- `str.lower()` on the code points this bot sees: ASCII letters and
the Russian alphabet (including `Ё`). -/
def py_lower_char (c : Char) : Char :=
  if 'A' ≤ c ∧ c ≤ 'Z' then Char.ofNat (c.toNat + 32)
  else if 'А' ≤ c ∧ c ≤ 'Я' then Char.ofNat (c.toNat + 32)
  else if c = 'Ё' then 'ё'
  else c

def py_lower (l : List Char) : List Char := l.map py_lower_char

def py_strip (l : List Char) : List Char :=
  ((l.dropWhile py_is_space).reverse.dropWhile py_is_space).reverse

/-- `int()` of a run of ASCII digits. -/
def natOfDigits (ds : List Char) : Nat :=
  ds.foldl (fun a c => a * 10 + (c.toNat - 48)) 0

def span_digits (l : List Char) : List Char × List Char :=
  (l.takeWhile py_is_digit, l.dropWhile py_is_digit)

def span_ws (l : List Char) : List Char × List Char :=
  (l.takeWhile py_is_space, l.dropWhile py_is_space)

def span_cyr (l : List Char) : List Char × List Char :=
  (l.takeWhile py_is_cyr, l.dropWhile py_is_cyr)

def drop_ws (l : List Char) : List Char := l.dropWhile py_is_space

/-- Match a literal at the head of the input, returning the suffix. -/
def match_lit : List Char → List Char → Option (List Char)
  | [], l => some l
  | _ :: _, [] => none
  | c :: cs, x :: xs => if x = c then match_lit cs xs else none

/-- Head match of `мой\s*др\s*` (keyword pattern 1 of parse_birthday). -/
def match_moi_dr (l : List Char) : Option (List Char) :=
  (match_lit "мой".toList l).bind
    (fun r => (match_lit "др".toList (drop_ws r)).map drop_ws)

/-- Head match of `мой\s*день\s*рождения\s*` (keyword pattern 2). -/
def match_moi_den (l : List Char) : Option (List Char) :=
  (match_lit "мой".toList l).bind (fun r =>
    (match_lit "день".toList (drop_ws r)).bind (fun r2 =>
      (match_lit "рождения".toList (drop_ws r2)).map drop_ws))

/-- Head match of `др\s*` (keyword pattern 3). -/
def match_dr (l : List Char) : Option (List Char) :=
  (match_lit "др".toList l).map drop_ws

/-- `re.sub(pattern, '', text)`: scan left to right, removing each
non-overlapping match and resuming after it.  Fuel-driven; the fuel
`l.length` suffices because every pattern above consumes at least one
character on a hit and the scan advances one character on a miss. -/
def sub_all_go (m : List Char → Option (List Char)) : Nat → List Char → List Char
  | 0, l => l
  | _ + 1, [] => []
  | f + 1, c :: cs =>
      match m (c :: cs) with
      | some rest => sub_all_go m f rest
      | none => c :: sub_all_go m f cs

def sub_all (m : List Char → Option (List Char)) (l : List Char) : List Char :=
  sub_all_go m l.length l

/-- The keyword stripping of `parse_birthday` (parsers.py lines 17-27):
lowercase, remove all occurrences of the three keyword patterns in
order, then strip. -/
def bday_clean (text : List Char) : List Char :=
  py_strip (sub_all match_dr (sub_all match_moi_den (sub_all match_moi_dr (py_lower text))))

/-- The month-name table of `parse_birthday` (parsers.py lines 33-46). -/
def month_names : List (String × Nat) :=
  [("января", 1), ("янв", 1), ("январь", 1),
   ("февраля", 2), ("фев", 2), ("февраль", 2),
   ("марта", 3), ("мар", 3), ("март", 3),
   ("апреля", 4), ("апр", 4), ("апрель", 4),
   ("мая", 5), ("май", 5),
   ("июня", 6), ("июнь", 6),
   ("июля", 7), ("июль", 7),
   ("августа", 8), ("авг", 8), ("август", 8),
   ("сентября", 9), ("сен", 9), ("сентябрь", 9),
   ("октября", 10), ("окт", 10), ("октябрь", 10),
   ("ноября", 11), ("ноя", 11), ("ноябрь", 11),
   ("декабря", 12), ("дек", 12), ("декабрь", 12)]

/-- `month_names.get(word)`. -/
def month_lookup (w : List Char) : Option Nat :=
  (month_names.find? (fun p => p.1 = String.mk w)).map (fun p => p.2)

/-- Grammar 1 of `parse_birthday` (line 53):
`^(\d{1,2})[\.\/](\d{1,2})(?:[\.\/](\d{2,4}))?$`. -/
def bday_v1 (l : List Char) : Option (Nat × Nat × Option Nat) :=
  let (d1, r1) := span_digits l
  if d1.length = 0 ∨ 2 < d1.length then none else
  match r1 with
  | [] => none
  | c :: r2 =>
    if c = '.' ∨ c = '/' then
      let (d2, r3) := span_digits r2
      if d2.length = 0 ∨ 2 < d2.length then none else
      match r3 with
      | [] => some (natOfDigits d1, natOfDigits d2, none)
      | c2 :: r4 =>
        if c2 = '.' ∨ c2 = '/' then
          let (d3, r5) := span_digits r4
          if 2 ≤ d3.length ∧ d3.length ≤ 4 ∧ r5 = [] then
            some (natOfDigits d1, natOfDigits d2, some (natOfDigits d3))
          else none
        else none
    else none

/-- Grammar 2 of `parse_birthday` (line 65):
`^(\d{1,2})\s+([а-яё]+)(?:\s+(\d{2,4}))?$`; the month word is returned
unresolved. -/
def bday_v2 (l : List Char) : Option (Nat × List Char × Option Nat) :=
  let (d1, r1) := span_digits l
  if d1.length = 0 ∨ 2 < d1.length then none else
  let (s1, r2) := span_ws r1
  if s1.length = 0 then none else
  let (w, r3) := span_cyr r2
  if w.length = 0 then none else
  match r3 with
  | [] => some (natOfDigits d1, w, none)
  | _ =>
    let (s2, r4) := span_ws r3
    if s2.length = 0 then none else
    let (d3, r5) := span_digits r4
    if 2 ≤ d3.length ∧ d3.length ≤ 4 ∧ r5 = [] then
      some (natOfDigits d1, w, some (natOfDigits d3))
    else none

/-- Grammar 3 of `parse_birthday` (line 78):
`^([а-яё]+)\s+(\d{1,2})(?:\s+(\d{2,4}))?$`. -/
def bday_v3 (l : List Char) : Option (List Char × Nat × Option Nat) :=
  let (w, r1) := span_cyr l
  if w.length = 0 then none else
  let (s1, r2) := span_ws r1
  if s1.length = 0 then none else
  let (d1, r3) := span_digits r2
  if d1.length = 0 ∨ 2 < d1.length then none else
  match r3 with
  | [] => some (w, natOfDigits d1, none)
  | _ =>
    let (s2, r4) := span_ws r3
    if s2.length = 0 then none else
    let (d3, r5) := span_digits r4
    if 2 ≤ d3.length ∧ d3.length ≤ 4 ∧ r5 = [] then
      some (w, natOfDigits d1, some (natOfDigits d3))
    else none

/-- The two-digit year expansion used in all three grammars
(parsers.py lines 60-61, 73-74, 86-87): `if year < 100: year += 2000 if
year <= 50 else 1900`. -/
def expand_year (y : Int) : Int :=
  if y < 100 then (if y ≤ 50 then y + 2000 else y + 1900) else y

/-- The year plausibility filter of `parse_birthday` (parsers.py lines
100-106), including the Python truthiness guard `if year:`. -/
def normalize_year (cur : Int) : Option Int → Option Int
  | none => none
  | some y =>
      if y = 0 then some 0
      else if y = cur then none
      else if y > cur ∨ y < cur - 120 then none
      else some y

/-- Python truthiness of the mutable `day`/`month` locals: `None` and
`0` are falsy. -/
def py_truthy : Option Nat → Bool
  | none => false
  | some n => n != 0

/-- `DateParser.parse_birthday` before the year plausibility filter:
keyword stripping, the three grammars tried under the
`if not day or not month` gating (each grammar overwrites `day`/`month`
and assigns `year` only when its third group matched), the
`if not day or not month` rejection, and the `datetime(test_year, month,
day)` validity check against the leap reference year 2024
(parsers.py lines 15-98). -/
def parse_birthday_core (text : List Char) : Option (Nat × Nat × Option Int) :=
  let tc := bday_clean text
  if tc = [] then none else
  let st1 : Option Nat × Option Nat × Option Int :=
    match bday_v1 tc with
    | some (d, m, y) =>
        (some d, some m, match y with | some n => some (expand_year (n : Int)) | none => none)
    | none => (none, none, none)
  let st2 : Option Nat × Option Nat × Option Int :=
    if py_truthy st1.1 ∧ py_truthy st1.2.1 then st1
    else match bday_v2 tc with
      | some (d, w, y) =>
          (some d, month_lookup w,
            match y with | some n => some (expand_year (n : Int)) | none => st1.2.2)
      | none => st1
  let st3 : Option Nat × Option Nat × Option Int :=
    if py_truthy st2.1 ∧ py_truthy st2.2.1 then st2
    else match bday_v3 tc with
      | some (w, d, y) =>
          (some d, month_lookup w,
            match y with | some n => some (expand_year (n : Int)) | none => st2.2.2)
      | none => st2
  match st3 with
  | (some d, some m, y) =>
      if d = 0 ∨ m = 0 then none
      else if pydatetime_ok (effective_py_year y) m d then some (d, m, y) else none
  | _ => none

/-- `DateParser.parse_birthday` (parsers.py lines 10-112); `cur` is
`datetime.now().year`. -/
def parse_birthday (cur : Int) (text : String) : Option (Nat × Nat × Option Int) :=
  (parse_birthday_core text.toList).map (fun t => (t.1, t.2.1, normalize_year cur t.2.2))

/-- Python's rendering of a day or month number (1..99) without leading
zeros, as it appears in the claim's f-string `"мой др {d}.{m}"`. -/
def digits_of (n : Nat) : List Char :=
  if n < 10 then [Char.ofNat (48 + n)]
  else [Char.ofNat (48 + n / 10), Char.ofNat (48 + n % 10)]

/-- The genitive month name (the form used in Russian dates), drawn from
the parser's month-name table. -/
def month_genitive (m : Nat) : String :=
  match m with
  | 1 => "января" | 2 => "февраля" | 3 => "марта" | 4 => "апреля"
  | 5 => "мая" | 6 => "июня" | 7 => "июля" | 8 => "августа"
  | 9 => "сентября" | 10 => "октября" | 11 => "ноября" | _ => "декабря"

def c7_numeric_input (d m : Nat) : String :=
  "мой др " ++ String.mk (digits_of d) ++ "." ++ String.mk (digits_of m)

def c7_name_input (d m : Nat) : String :=
  "мой др " ++ String.mk (digits_of d) ++ " " ++ month_genitive m

theorem c7_grid : ((List.range 32).all fun d => (List.range 13).all fun m =>
    !(pydatetime_ok 2024 (m : Int) (d : Int)) ||
      ((parse_birthday_core (c7_numeric_input d m).toList == some (d, m, none)) &&
       (parse_birthday_core (c7_name_input d m).toList == some (d, m, none)))) = true := by
  decide

theorem month_days_le_31 (y m : Nat) : month_days y m ≤ 31 := by
  unfold month_days
  split
  · split <;> omega
  · split <;> omega

/-- **C7.**  For every day `d` and month `m` forming a valid date in the
leap reference year, `parse_birthday` on the numeric form
"мой др d.m" and on the month-name form "мой др d <genitive name>"
returns the same triple `(d, m, None)`, for any current year. -/
theorem C7_numeric_and_name_forms_agree (cur : Int) (d m : Nat)
    (h : pydatetime_ok 2024 (m : Int) (d : Int) = true) :
    parse_birthday cur (c7_numeric_input d m) = some (d, m, none) ∧
    parse_birthday cur (c7_name_input d m) = some (d, m, none) := by
  have h0 := h
  simp only [pydatetime_ok, decide_eq_true_eq] at h0
  obtain ⟨-, -, hm1, hm2, hd1, hd2⟩ := h0
  have hmd := month_days_le_31 ((2024 : Int).toNat) ((m : Int).toNat)
  have hd32 : d < 32 := by omega
  have hm13 : m < 13 := by omega
  have hg := List.all_eq_true.mp c7_grid d (List.mem_range.mpr hd32)
  have hg2 := List.all_eq_true.mp hg m (List.mem_range.mpr hm13)
  rw [Bool.or_eq_true, Bool.not_eq_true'] at hg2
  rcases hg2 with hg2 | hg2
  · rw [h] at hg2
    exact absurd hg2 (by decide)
  · rw [Bool.and_eq_true] at hg2
    obtain ⟨e1, e2⟩ := hg2
    constructor
    · unfold parse_birthday
      rw [eq_of_beq e1]
      rfl
    · unfold parse_birthday
      rw [eq_of_beq e2]
      rfl

/-- C7 witness: June 28, a valid date, parses identically as
"мой др 28.6" and "мой др 28 июня". -/
theorem C7_numeric_and_name_forms_agree_witness :
    pydatetime_ok 2024 6 28 = true ∧
    parse_birthday 2025 (c7_numeric_input 28 6) = some (28, 6, none) ∧
    parse_birthday 2025 (c7_name_input 28 6) = some (28, 6, none) := by
  have h : pydatetime_ok 2024 6 28 = true := by decide
  have hc := C7_numeric_and_name_forms_agree 2025 28 6 h
  exact ⟨h, hc.1, hc.2⟩

/-- **C8.**  In `parse_birthday`, every parsed two-digit year value `y`
(0..99) is expanded to `2000 + y` when `y ≤ 50` and to `1900 + y` when
`y > 50`; and the plausibility filter maps a (necessarily ≥ 100)
resulting year to `None` exactly when it equals the current year,
exceeds it, or lies more than 120 years before it — otherwise the year
passes through unchanged. -/
theorem C8_year_expansion_and_plausibility :
    (∀ y : Int, 0 ≤ y → y < 100 →
      expand_year y = if y ≤ 50 then 2000 + y else 1900 + y) ∧
    (∀ cur y : Int, 100 ≤ y →
      ((normalize_year cur (some y) = none ↔
          (y = cur ∨ y > cur ∨ y < cur - 120)) ∧
        (¬ (y = cur ∨ y > cur ∨ y < cur - 120) →
          normalize_year cur (some y) = some y))) := by
  constructor
  · intro y _ h100
    unfold expand_year
    rw [if_pos h100]
    split_ifs <;> omega
  · intro cur y h100
    simp only [normalize_year]
    rw [if_neg (show ¬ y = 0 by omega)]
    by_cases h1 : y = cur
    · simp [h1]
    · rw [if_neg h1]
      by_cases h2 : y > cur ∨ y < cur - 120
      · rw [if_pos h2]
        constructor
        · exact ⟨fun _ => Or.inr h2, fun _ => rfl⟩
        · intro hc
          exact absurd (Or.inr h2) hc
      · rw [if_neg h2]
        constructor
        · constructor
          · intro hc
            exact absurd hc (by simp)
          · intro hc
            rcases hc with hc | hc
            · exact absurd hc h1
            · exact absurd hc h2
        · intro _
          rfl

/-- C8 witness: the two-digit year 98 expands to 1998, and 1998 passes
the plausibility filter unchanged for current year 2025, while 2025
itself is dropped. -/
theorem C8_year_expansion_and_plausibility_witness :
    expand_year 98 = 1998 ∧ normalize_year 2025 (some 1998) = some 1998 ∧
      normalize_year 2025 (some 2025) = none := by
  have h1 := C8_year_expansion_and_plausibility.1 98 (by norm_num) (by norm_num)
  have h2 := (C8_year_expansion_and_plausibility.2 2025 1998 (by norm_num)).2
    (by omega)
  have h3 := (C8_year_expansion_and_plausibility.2 2025 2025 (by norm_num)).1.mpr
    (Or.inl rfl)
  refine ⟨?_, h2, h3⟩
  rw [h1]
  norm_num

/-! ## Event command parser (the `parse_event_command` text,
parsers.py lines 114-220)

The function text is nested inside `parse_birthday` in the source (see
the C4 development below); its body is embedded here as written.  The
three event date patterns are prefix (unanchored) matches, so each
matcher also reports the number of characters consumed
(`date_match.end()`), which the handler uses to slice the event name
out of the original-case line. -/

/-- Prefix match of `^(\d{1,2})[\.\/](\d{1,2})(?:[\.\/](\d{4}))?`
(event pattern 1): digit groups, the optional four-digit year, and the
consumed length. -/
def ev1 (l : List Char) : Option (List Char × List Char × Option (List Char) × Nat) :=
  let (d1, r1) := span_digits l
  if d1.length = 0 ∨ 2 < d1.length then none else
  match r1 with
  | [] => none
  | c :: r2 =>
    if c = '.' ∨ c = '/' then
      let (d2run, r3) := span_digits r2
      if d2run.length = 0 then none else
      let d2 := d2run.take 2
      let rest0 := d2run.drop 2 ++ r3
      match rest0 with
      | c2 :: r4 =>
        if (c2 = '.' ∨ c2 = '/') ∧ (r4.take 4).length = 4 ∧ (r4.take 4).all py_is_digit then
          some (d1, d2, some (r4.take 4), d1.length + 1 + d2.length + 1 + 4)
        else some (d1, d2, none, d1.length + 1 + d2.length)
      | [] => some (d1, d2, none, d1.length + 1 + d2.length)
    else none

/-- Prefix match of `^(\d{1,2})\s+([а-яё]+)(?:\s+(\d{4}))?`
(event pattern 2). -/
def ev2 (l : List Char) : Option (List Char × List Char × Option (List Char) × Nat) :=
  let (d1, r1) := span_digits l
  if d1.length = 0 ∨ 2 < d1.length then none else
  let (s1, r2) := span_ws r1
  if s1.length = 0 then none else
  let (w, r3) := span_cyr r2
  if w.length = 0 then none else
  let (s2, r4) := span_ws r3
  if s2.length ≠ 0 ∧ (r4.take 4).length = 4 ∧ (r4.take 4).all py_is_digit then
    some (d1, w, some (r4.take 4), d1.length + s1.length + w.length + s2.length + 4)
  else some (d1, w, none, d1.length + s1.length + w.length)

/-- Prefix match of `^([а-яё]+)\s+(\d{1,2})(?:\s+(\d{4}))?`
(event pattern 3). -/
def ev3 (l : List Char) : Option (List Char × List Char × Option (List Char) × Nat) :=
  let (w, r1) := span_cyr l
  if w.length = 0 then none else
  let (s1, r2) := span_ws r1
  if s1.length = 0 then none else
  let (d1run, r3) := span_digits r2
  if d1run.length = 0 then none else
  let d1 := d1run.take 2
  let rest0 := d1run.drop 2 ++ r3
  let (s2, r4) := span_ws rest0
  if s2.length ≠ 0 ∧ (r4.take 4).length = 4 ∧ (r4.take 4).all py_is_digit then
    some (w, d1, some (r4.take 4), w.length + s1.length + d1.length + s2.length + 4)
  else some (w, d1, none, w.length + s1.length + d1.length)

/-- A structural event-date match: which kind of pattern hit (numeric
pattern 1, or one of the month-name patterns whose extraction depends on
`group(1).isalpha()`), its groups, and the consumed length. -/
inductive EvMatch where
  | numeric (g1 g2 : List Char) (g3 : Option (List Char)) (len : Nat)
  | alpha (g1 g2 : List Char) (g3 : Option (List Char)) (len : Nat)
deriving DecidableEq, Repr

/-- The pattern loop of `parse_event_command` (lines 137-150): try the
three patterns in order, first structural hit wins. -/
def ev_date_match (l : List Char) : Option EvMatch :=
  match ev1 l with
  | some (g1, g2, g3, n) => some (.numeric g1 g2 g3 n)
  | none =>
    match ev2 l with
    | some (g1, g2, g3, n) => some (.alpha g1 g2 g3 n)
    | none =>
      match ev3 l with
      | some (g1, g2, g3, n) => some (.alpha g1 g2 g3 n)
      | none => none

/-- `str.isalpha()` restricted to the characters the captured groups can
hold (digit runs or Cyrillic-letter runs). -/
def py_is_alpha_str (w : List Char) : Bool :=
  !w.isEmpty && w.all py_is_cyr

/-- The group-extraction branches of `parse_event_command` (lines
171-188): numeric patterns read day and month digits; month-name
patterns dispatch on `group(1).isalpha()` and resolve the name through
the month table. -/
def ev_extract (mt : EvMatch) : Option Nat × Option Nat × Option Int × Nat :=
  match mt with
  | .numeric g1 g2 g3 n =>
      (some (natOfDigits g1), some (natOfDigits g2),
        (match g3 with | some y => some ((natOfDigits y : Int)) | none => none), n)
  | .alpha g1 g2 g3 n =>
      if py_is_alpha_str g1 then
        (some (natOfDigits g2), month_lookup g1,
          (match g3 with | some y => some ((natOfDigits y : Int)) | none => none), n)
      else
        (some (natOfDigits g1), month_lookup g2,
          (match g3 with | some y => some ((natOfDigits y : Int)) | none => none), n)

/-- The `if not day or not month` rejection after extraction: fails when
a month name was not in the table or a parsed day/month is zero. -/
def ev_extract_dm_bad (mt : EvMatch) : Bool :=
  match ev_extract mt with
  | (some d, some m, _, _) => d == 0 || m == 0
  | _ => true

structure EventDraft where
  day : Nat
  month : Nat
  year : Option Int
  event_name : String
  message_text : String
deriving DecidableEq, Repr

/-- `text.strip().split('\n', 2)`. -/
def break_nl : List Char → List Char × Option (List Char)
  | [] => ([], none)
  | c :: cs =>
      if c = '\n' then ([], some cs)
      else
        let (a, b) := break_nl cs
        (c :: a, b)

def split_nl_max2 (l : List Char) : List (List Char) :=
  match break_nl l with
  | (a, none) => [a]
  | (a, some rest) =>
    match break_nl rest with
    | (b, none) => [a, b]
    | (b, some rest2) => [a, b, rest2]

/-- `re.sub(r'^/add_event\s*', '', line, flags=re.IGNORECASE)`:
anchored, so at most the one leading occurrence is removed. -/
def strip_cmd (l : List Char) : List Char :=
  match match_lit "/add_event".toList (py_lower l) with
  | some _ => drop_ws (l.drop "/add_event".toList.length)
  | none => l

def pec_lines (text : String) : List (List Char) :=
  split_nl_max2 (py_strip text.toList)

def pec_first_orig (text : String) : List Char :=
  strip_cmd (py_strip ((pec_lines text).headD []))

def pec_first (text : String) : List Char :=
  strip_cmd (py_lower (py_strip ((pec_lines text).headD [])))

/-- The `parse_event_command` body (parsers.py lines 114-220); `cur` is
`datetime.now().year`.  Note there is no rejection of an empty event
name: the date-stripped remainder of line 1 is returned as-is. -/
def parse_event_command (cur : Int) (text : String) : Option EventDraft :=
  if (pec_lines text).length < 2 then none
  else
    match ev_date_match (pec_first text) with
    | none => none
    | some mt =>
      match ev_extract mt with
      | (some d, some m, yr, len) =>
        if d = 0 ∨ m = 0 then none
        else if py_strip ((pec_lines text).getD 1 []) = [] then none
        else
          some ⟨d, m,
            (match yr with
             | some y => if y ≠ 0 ∧ y = cur then none else some y
             | none => none),
            String.mk (py_strip ((pec_first_orig text).drop len)),
            String.mk (py_strip ((pec_lines text).getD 1 []))⟩
      | _ => none

/-- **C3 counterexample.**  The claim says `parse_event_command` returns
NotParsed when the event-name remainder of line 1 after the date is
empty.  It does not: the body never checks the event name, so
"/add_event 10.06" followed by a message line parses into a draft whose
event name is the empty string. -/
theorem C3_counterexample :
    parse_event_command 2025 "/add_event 10.06\nТекст" =
      some ⟨10, 6, none, "", "Текст"⟩ := by
  decide

/-- **C3 (amended).**  `parse_event_command` returns NotParsed iff fewer
than 2 lines are present, or no date pattern structurally matches at the
start of line 1 after stripping the command token, or the matched groups
fail the day/month resolution (an unrecognized month name, or a zero day
or month), or the message body (line 2) is empty after stripping.  An
empty event name does *not* cause failure; otherwise a draft with the
parsed day, month, optional year, event name and message text is
returned. -/
theorem C3_event_command_failure_conditions (cur : Int) (text : String) :
    parse_event_command cur text = none ↔
      ((pec_lines text).length < 2 ∨
        ev_date_match (pec_first text) = none ∨
        (∃ mt, ev_date_match (pec_first text) = some mt ∧
          ev_extract_dm_bad mt = true) ∨
        py_strip ((pec_lines text).getD 1 []) = []) := by
  unfold parse_event_command
  by_cases hl : (pec_lines text).length < 2
  · simp [hl]
  · rw [if_neg hl]
    simp only [hl, false_or]
    split
    · rename_i hmt
      simp [hmt]
    · rename_i mt hmt
      rw [hmt]
      simp only [Option.some.injEq, reduceCtorEq, false_or]
      split
      · rename_i d m yr len hext
        have hbadiff : ev_extract_dm_bad mt = true ↔ (d = 0 ∨ m = 0) := by
          unfold ev_extract_dm_bad
          rw [hext]
          simp
        by_cases hdm : d = 0 ∨ m = 0
        · rw [if_pos hdm]
          constructor
          · intro _
            exact Or.inl ⟨mt, rfl, hbadiff.mpr hdm⟩
          · intro _
            rfl
        · rw [if_neg hdm]
          by_cases hmsg : py_strip ((pec_lines text).getD 1 []) = []
          · rw [if_pos hmsg]
            constructor
            · intro _
              exact Or.inr hmsg
            · intro _
              rfl
          · rw [if_neg hmsg]
            constructor
            · intro h
              exact absurd h (by simp)
            · rintro (⟨mt2, hmt2, hbad2⟩ | hmsg2)
              · rw [← hmt2] at hbad2
                exact absurd (hbadiff.mp hbad2) hdm
              · exact absurd hmsg2 hmsg
      · rename_i hfall
        have hbad : ev_extract_dm_bad mt = true := by
          unfold ev_extract_dm_bad
          rcases hext : ev_extract mt with ⟨dq, mq, yr, len⟩
          rcases dq with _ | d
          · rfl
          · rcases mq with _ | m
            · rfl
            · exact absurd hext (by intro h; exact hfall d m yr len h)
        constructor
        · intro _
          exact Or.inl ⟨mt, rfl, hbad⟩
        · intro _
          rfl

/-! ## C4: the `/add_event` handler and the missing class attribute -/

/-- The class-level attribute names of `DateParser`, as produce by
executing the class body of parsers.py: `parse_birthday` (line 10) and
`extract_user_identifier` (line 222) are the only `def`s at class scope.
The `parse_event_command` text (lines 114-220) is indented *inside* the
body of `parse_birthday`, after a try/except statement whose every path
returns — dead code that never binds a class attribute. -/
def date_parser_class_attrs : List String :=
  ["parse_birthday", "extract_user_identifier"]

/-- Python attribute lookup `getattr(DateParser, name)`. -/
def date_parser_getattr (name : String) : Option String :=
  date_parser_class_attrs.find? (fun a => a = name)

inductive DbOp where
  | addEvent
  | otherWrite
deriving DecidableEq, Repr

inductive AddEventOutcome where
  | disallowedChat
  | notAdmin
  | attributeError
  | completed
deriving DecidableEq, Repr

/-- `TelegramBot._handle_add_event` (bot.py lines 1286-1380) reduced to
its control flow: the chat whitelist gate, the admin gate, then the
attribute access `DateParser.parse_event_command` at line 1306 — which
sits *outside* the `try` that begins at line 1340 — and only past it the
`Database.add_event` write.  A failed attribute lookup raises
AttributeError and aborts the handler before any store write. -/
def handle_add_event (chat_allowed is_admin : Bool) (_text : String) :
    AddEventOutcome × List DbOp :=
  if !chat_allowed then (.disallowedChat, [])
  else if !is_admin then (.notAdmin, [])
  else
    match date_parser_getattr "parse_event_command" with
    | none => (.attributeError, [])
    | some _ => (.completed, [.addEvent])

/-- **C4.**  Every `/add_event` invocation that reaches the parser call
faults with AttributeError (the `DateParser` class has no
`parse_event_command` attribute), and no invocation — whatever the
gates decide — ever performs the `Database.add_event` write. -/
theorem C4_add_event_handler_always_faults
    (chat_allowed is_admin : Bool) (text : String) :
    ((handle_add_event chat_allowed is_admin text).2.all
      (fun op => op != DbOp.addEvent) = true) ∧
    (chat_allowed = true → is_admin = true →
      (handle_add_event chat_allowed is_admin text).1 =
        AddEventOutcome.attributeError) := by
  cases chat_allowed <;> cases is_admin <;>
    simp [handle_add_event, date_parser_getattr, date_parser_class_attrs]

/-- C4 witness: a concrete admin invocation in an allowed chat faults
with AttributeError. -/
theorem C4_add_event_handler_always_faults_witness :
    (handle_add_event true true "/add_event 01.05 Праздник\nТекст").1 =
      AddEventOutcome.attributeError :=
  (C4_add_event_handler_always_faults true true
    "/add_event 01.05 Праздник\nТекст").2 rfl rfl
